import Mathlib

/-!
Verification of the WakeOnLan relay (src/wol_relay.py) against its
natural-language specification.  The Python source is shallowly embedded:
pure fragments become Lean functions, exceptions become Option/Except-style
results, and the outcomes of foreign calls (child processes, sockets) are
passed in explicitly as oracle arguments.  Bytes are natural numbers below
256; Python strings are Lean String / List Char.
-/

namespace WolRelay

/-- Python truthiness of an optional string (None and the empty string are
falsy, every other string is truthy). -/
def pyTruthy : Option String → Bool
  | none => false
  | some s => s ≠ ""

/-- Python `a or b` on optional strings: the first operand if it is truthy,
otherwise the second operand. -/
def pyOr (a b : Option String) : Option String :=
  if pyTruthy a then a else b

/-- Python str.lower restricted to the ASCII casing relevant here. -/
def pyLower (s : String) : String :=
  String.mk (s.data.map Char.toLower)

/-- Value of a hexadecimal digit as accepted by Python bytes.fromhex
(0-9, a-f, A-F). -/
def hexVal (c : Char) : Option Nat :=
  if '0' ≤ c ∧ c ≤ '9' then some (c.toNat - 48)
  else if 'a' ≤ c ∧ c ≤ 'f' then some (c.toNat - 87)
  else if 'A' ≤ c ∧ c ≤ 'F' then some (c.toNat - 55)
  else none

/-- ASCII whitespace, which Python bytes.fromhex skips over. -/
def isPyWs (c : Char) : Bool :=
  c = ' ' ∨ c = '\t' ∨ c = '\n' ∨ c = '\r' ∨ c = '\x0b' ∨ c = '\x0c'

/-- Decode a whitespace-free character list as consecutive hexadecimal byte
pairs; none models the ValueError raised by bytes.fromhex. -/
def fromhexPairs : List Char → Option (List Nat)
  | [] => some []
  | [_] => none
  | a :: b :: rest =>
    match hexVal a, hexVal b, fromhexPairs rest with
    | some hi, some lo, some bs => some ((16 * hi + lo) :: bs)
    | _, _, _ => none

/-- Python bytes.fromhex: ASCII whitespace is ignored, the remaining
characters must form hexadecimal byte pairs. -/
def pyFromhex (s : List Char) : Option (List Nat) :=
  fromhexPairs (s.filter (fun c => !(isPyWs c)))

/-- mac_address.replace(":", "").replace("-", "").lower() from
create_magic_packet (wol_relay.py line 66). -/
def cleanMac (s : String) : List Char :=
  ((s.data.filter (fun c => c ≠ ':')).filter (fun c => c ≠ '-')).map Char.toLower

/-- create_magic_packet (wol_relay.py lines 64-70): strip separators and
lower-case, require length 12, then return 6 bytes 0xFF followed by
bytes.fromhex(mac_clean) repeated 16 times.  none models the ValueError
raised on the length check or inside bytes.fromhex. -/
def create_magic_packet (mac_address : String) : Option (List Nat) :=
  let mac_clean := cleanMac mac_address
  if mac_clean.length ≠ 12 then none
  else
    match pyFromhex mac_clean with
    | none => none
    | some macBytes => some (List.replicate 6 255 ++ (List.replicate 16 macBytes).flatten)

/-- The three power-state classifications of a probed host. -/
inductive HostStatus
  | offline
  | sleeping
  | online
  deriving DecidableEq

/-- Status classification of _handle_status (wol_relay.py lines 260-265):
the ping result decides first; the TCP probe is a thunk that is forced only
when ping succeeded.  The second component of the result records whether
the TCP probe was executed. -/
def classifyStatus (ping_ok : Bool) (tcpProbe : Unit → Bool) : HostStatus × Bool :=
  if ping_ok then
    ((if tcpProbe () then HostStatus.online else HostStatus.sleeping), true)
  else (HostStatus.offline, false)

/-- The configured per-OS-family suspend commands
(DEFAULT_SLEEP_CMD_LINUX / _WINDOWS / _MACOS, wol_relay.py lines 19-25). -/
structure SleepConfig where
  sleepCmdLinux : String
  sleepCmdWindows : String
  sleepCmdMacos : String

/-- Command resolution of trigger_sleep (wol_relay.py lines 93-104): a
truthy custom_command wins; otherwise (os_type or "").lower() is compared
against the three fixed key tuples; none models the ValueError for an
unknown OS type with no custom command. -/
def resolveSleepCommand (cfg : SleepConfig) (os_type custom_command : Option String) :
    Option String :=
  if pyTruthy custom_command then custom_command
  else
    let normalized := pyLower (os_type.getD "")
    if normalized = "linux" ∨ normalized = "unix" then some cfg.sleepCmdLinux
    else if normalized = "windows" ∨ normalized = "win" then some cfg.sleepCmdWindows
    else if normalized = "macos" ∨ normalized = "mac" ∨ normalized = "darwin" then
      some cfg.sleepCmdMacos
    else none

/-- The fixed lookup table as the specification words it, keyed by the
normalized OS family name. -/
def sleepTableSpec (cfg : SleepConfig) (family : String) : Option String :=
  if family ∈ ["linux", "unix"] then some cfg.sleepCmdLinux
  else if family ∈ ["windows", "win"] then some cfg.sleepCmdWindows
  else if family ∈ ["macos", "mac", "darwin"] then some cfg.sleepCmdMacos
  else none

/-- Sleep-command resolution as the specification words it: a non-empty
override is used verbatim regardless of the OS family; otherwise the
lower-cased family is looked up in the fixed table; an absent or
unrecognized family fails with no silent default. -/
def resolveSleepCommandSpec (cfg : SleepConfig) (os_type custom_command : Option String) :
    Option String :=
  match custom_command with
  | some c => if c ≠ "" then some c else
      match os_type with
      | none => none
      | some f => sleepTableSpec cfg (pyLower f)
  | none =>
      match os_type with
      | none => none
      | some f => sleepTableSpec cfg (pyLower f)

/-- JSON values appearing in the relay response bodies. -/
inductive JVal
  | str (s : String)
  | int (n : Int)
  | bool (b : Bool)
  | null
  deriving DecidableEq

/-- An HTTP response: status code plus flat JSON object body. -/
structure Response where
  status : Nat
  body : List (String × JVal)
  deriving DecidableEq

/-- Value of a field of a JSON response body. -/
def fieldVal (r : Response) (k : String) : Option JVal :=
  (r.body.find? (fun f => f.1 = k)).map Prod.snd

/-- Process-level configuration used on the sleep path: SSH_BIN, the
result of shlex.split(SSH_EXTRA_ARGS) when that setting is non-blank
(else the empty list), and the per-OS suspend commands
(wol_relay.py lines 17-25, 106-108). -/
structure RelayConfig where
  sshBin : String
  sshExtraArgs : List String
  sleep : SleepConfig

/-- Exceptions that do_POST catches from the request handlers
(wol_relay.py lines 179-188): ValueError with a message, and
subprocess.CalledProcessError carrying the exit code and the argv. -/
inductive PostExc
  | valueError (msg : String)
  | calledProcessError (returncode : Int) (cmd : List String)
  deriving DecidableEq

/-- trigger_sleep (wol_relay.py lines 86-114): resolve the command, build
the argv [SSH_BIN, *extra args, host, command], run it (the exit status of
the child is the oracle childExit) with check=True, which raises
CalledProcessError on a non-zero exit.  The ok value is the argv that was
run. -/
def trigger_sleep (cfg : RelayConfig) (host : String)
    (os_type custom_command : Option String) (childExit : Int) :
    Except PostExc (List String) :=
  match resolveSleepCommand cfg.sleep os_type custom_command with
  | none => Except.error (PostExc.valueError "Unknown OS type and no custom command provided")
  | some command =>
    let ssh_parts := cfg.sshBin :: (cfg.sshExtraArgs ++ [host, command])
    if childExit ≠ 0 then Except.error (PostExc.calledProcessError childExit ssh_parts)
    else Except.ok ssh_parts

/-- send_magic_packet (wol_relay.py lines 73-82): the packet is fully
built (and the MAC thereby validated) before the UDP socket is opened; the
ok value is the datagram payload handed to sendto. -/
def send_magic_packet (mac_address : String) : Except PostExc (List Nat) :=
  match create_magic_packet mac_address with
  | none => Except.error (PostExc.valueError "Invalid MAC address format")
  | some packet => Except.ok packet

/-- A parsed JSON request body, with one optional string per key the
handlers read. -/
structure PostBody where
  action : Option String
  mac : Option String
  mac_address : Option String
  host : Option String
  ip_address : Option String
  ip : Option String
  os : Option String
  command : Option String

/-- The externally visible side effects of one POST dispatch: the UDP
datagram handed to the network, if any, and the argv of the spawned child
process, if any. -/
structure Effects where
  datagram : Option (List Nat)
  childRun : Option (List String)
  deriving DecidableEq

/-- _handle_wake (wol_relay.py lines 221-227). -/
def handle_wake (data : PostBody) : Except PostExc Response × Effects :=
  let mac_address := pyOr data.mac data.mac_address
  if ¬ pyTruthy mac_address then
    (Except.error (PostExc.valueError "Missing \x27mac\x27 parameter"), ⟨none, none⟩)
  else
    match send_magic_packet (mac_address.getD "") with
    | Except.error e => (Except.error e, ⟨none, none⟩)
    | Except.ok packet =>
      (Except.ok ⟨200, [("status", JVal.str "success")]⟩, ⟨some packet, none⟩)

/-- _handle_sleep (wol_relay.py lines 229-238). -/
def handle_sleep (cfg : RelayConfig) (data : PostBody) (childExit : Int) :
    Except PostExc Response × Effects :=
  let host := pyOr (pyOr data.host data.ip_address) data.ip
  if ¬ pyTruthy host then
    (Except.error (PostExc.valueError "Missing \x27host\x27 or \x27ip_address\x27 parameter"),
     ⟨none, none⟩)
  else
    match trigger_sleep cfg (host.getD "") data.os data.command childExit with
    | Except.error (PostExc.calledProcessError rc cmd) =>
      (Except.error (PostExc.calledProcessError rc cmd), ⟨none, some cmd⟩)
    | Except.error e => (Except.error e, ⟨none, none⟩)
    | Except.ok cmd => (Except.ok ⟨200, [("status", JVal.str "success")]⟩, ⟨none, some cmd⟩)

/-- _handle_control (wol_relay.py lines 193-219). -/
def handle_control (cfg : RelayConfig) (data : PostBody) (childExit : Int) :
    Except PostExc Response × Effects :=
  let action := pyLower (data.action.getD "")
  if ¬ (action = "wake" ∨ action = "sleep") then
    (Except.error
      (PostExc.valueError "Unsupported \x27action\x27 value. Use \x27wake\x27 or \x27sleep\x27."),
     ⟨none, none⟩)
  else if action = "wake" then
    let mac_address := pyOr data.mac_address data.mac
    if ¬ pyTruthy mac_address then
      (Except.error (PostExc.valueError "Missing \x27mac_address\x27 parameter for wake action"),
       ⟨none, none⟩)
    else
      match send_magic_packet (mac_address.getD "") with
      | Except.error e => (Except.error e, ⟨none, none⟩)
      | Except.ok packet =>
        (Except.ok ⟨200, [("status", JVal.str "success"), ("action", JVal.str "wake")]⟩,
         ⟨some packet, none⟩)
  else
    let host := pyOr (pyOr data.host data.ip_address) data.ip
    if ¬ pyTruthy host then
      (Except.error
        (PostExc.valueError "Missing \x27ip_address\x27 or \x27host\x27 parameter for sleep action"),
       ⟨none, none⟩)
    else
      match trigger_sleep cfg (host.getD "") data.os data.command childExit with
      | Except.error (PostExc.calledProcessError rc cmd) =>
        (Except.error (PostExc.calledProcessError rc cmd), ⟨none, some cmd⟩)
      | Except.error e => (Except.error e, ⟨none, none⟩)
      | Except.ok cmd =>
        (Except.ok ⟨200, [("status", JVal.str "success"), ("action", JVal.str "sleep")]⟩,
         ⟨none, some cmd⟩)

/-- Python repr of a string (approximated: quotes around the text). -/
def pyReprStr (s : String) : String :=
  "\x27" ++ s ++ "\x27"

/-- Python str of a list of strings. -/
def pyReprStrList (l : List String) : String :=
  "[" ++ String.intercalate ", " (l.map pyReprStr) ++ "]"

/-- str(subprocess.CalledProcessError), the details field of the 502
body. -/
def strCalledProcessError (rc : Int) (cmd : List String) : String :=
  "Command " ++ pyReprStrList cmd ++ " returned non-zero exit status " ++ toString rc ++ "."

/-- The except clauses of do_POST (wol_relay.py lines 179-188): ValueError
becomes a 400 with the message as the error field; CalledProcessError
becomes a 502 carrying the error text, details, the exit code, and the
space-joined argv (null when the argv is empty). -/
def postResponse (r : Except PostExc Response) : Response :=
  match r with
  | Except.ok resp => resp
  | Except.error (PostExc.valueError msg) => ⟨400, [("error", JVal.str msg)]⟩
  | Except.error (PostExc.calledProcessError rc cmd) =>
    ⟨502, [("error", JVal.str "Sleep command failed"),
           ("details", JVal.str (strCalledProcessError rc cmd)),
           ("returncode", JVal.int rc),
           ("command", if cmd = [] then JVal.null
                       else JVal.str (String.intercalate " " cmd))]⟩

/-- POST /wake end to end: _handle_wake under the do_POST exception
mapping. -/
def do_POST_wake (data : PostBody) : Response × Effects :=
  let r := handle_wake data
  (postResponse r.1, r.2)

/-- POST /sleep end to end: _handle_sleep under the do_POST exception
mapping. -/
def do_POST_sleep (cfg : RelayConfig) (data : PostBody) (childExit : Int) :
    Response × Effects :=
  let r := handle_sleep cfg data childExit
  (postResponse r.1, r.2)

/-- POST /api/control end to end: _handle_control under the do_POST
exception mapping. -/
def do_POST_control (cfg : RelayConfig) (data : PostBody) (childExit : Int) :
    Response × Effects :=
  let r := handle_control cfg data childExit
  (postResponse r.1, r.2)

/-- Value of an ASCII decimal digit. -/
def digitVal (c : Char) : Option Nat :=
  if '0' ≤ c ∧ c ≤ '9' then some (c.toNat - 48) else none

/-- Digits of a Python integer literal after the first digit: decimal
digits with single underscores allowed between digits only. -/
def parseDigitsCore : Nat → List Char → Option Nat
  | acc, [] => some acc
  | acc, c :: rest =>
    if c = '_' then
      match rest with
      | [] => none
      | c2 :: rest2 =>
        match digitVal c2 with
        | some d => parseDigitsCore (10 * acc + d) rest2
        | none => none
    else
      match digitVal c with
      | some d => parseDigitsCore (10 * acc + d) rest
      | none => none

/-- A non-empty run of decimal digits starting with a digit, with
underscores between digits. -/
def pyParseDigits : List Char → Option Nat
  | [] => none
  | c :: rest =>
    match digitVal c with
    | some d => parseDigitsCore d rest
    | none => none

/-- Strip leading and trailing whitespace (ASCII model). -/
def pyStripWs (l : List Char) : List Char :=
  ((l.dropWhile (fun c => isPyWs c)).reverse.dropWhile (fun c => isPyWs c)).reverse

/-- Python int(str): strip whitespace, then an optional sign followed by a
non-empty digit run (with underscores between digits); none models the
ValueError. -/
def pyIntParse (s : String) : Option Int :=
  match pyStripWs s.data with
  | [] => none
  | c :: rest =>
    if c = '+' then (pyParseDigits rest).map Int.ofNat
    else if c = '-' then (pyParseDigits rest).map (fun n => -(n : Int))
    else (pyParseDigits (c :: rest)).map Int.ofNat

/-- Possible outcomes of subprocess.check_output for the ping child
process: captured output on exit 0, CalledProcessError on a non-zero exit,
or some other raised exception (missing executable, permission error, and
so on: all of these are Exception subclasses in Python). -/
inductive SubprocessOutcome
  | output (out : List Nat)
  | calledProcessError (rc : Int)
  | fileNotFoundError
  | permissionError
  | otherException (msg : String)
  deriving DecidableEq

/-- The ping argument vector built by ping_host (wol_relay.py lines
119-122): count flag -n (Windows) or -c, timeout flag -w (Windows) or -W,
and the literal timeout value 1000 on both platforms. -/
def pingCommand (isWindowsOs : Bool) (host : String) : List String :=
  let param := if isWindowsOs then "-n" else "-c"
  let timeoutParam := if isWindowsOs then "-w" else "-W"
  ["ping", param, "1", timeoutParam, "1000", host]

/-- ping_host (wol_relay.py lines 117-130): run the ping command via
check_output inside a try block; except CalledProcessError gives False and
except Exception gives False.  The runner oracle maps the argv to the
outcome of the foreign call. -/
def ping_host (isWindowsOs : Bool) (host : String)
    (runner : List String → SubprocessOutcome) : Bool :=
  match runner (pingCommand isWindowsOs host) with
  | SubprocessOutcome.output _ => true
  | SubprocessOutcome.calledProcessError _ => false
  | SubprocessOutcome.fileNotFoundError => false
  | SubprocessOutcome.permissionError => false
  | SubprocessOutcome.otherException _ => false

/-- Outcomes of socket.create_connection: a connection, or an OSError (a
refusal, timeout, resolution failure and permission failure are all
OSError subclasses). -/
inductive ConnectOutcome
  | connected
  | osError (kind : String)
  deriving DecidableEq

/-- The default timeout argument of check_tcp_port (wol_relay.py line
133), the float 2.0, as an exact rational. -/
def checkTcpTimeoutDefault : ℚ := 2

/-- check_tcp_port (wol_relay.py lines 133-139): attempt
socket.create_connection((host, port), timeout) in a try block returning
True; except OSError gives False.  The connect oracle maps the arguments
to the outcome of the foreign call. -/
def check_tcp_port (host : String) (port : Int) (timeout : ℚ)
    (connect : String → Int → ℚ → ConnectOutcome) : Bool :=
  match connect host port timeout with
  | ConnectOutcome.connected => true
  | ConnectOutcome.osError _ => false

/-- Result of one GET /api/status dispatch: the response plus a record of
which probes were actually executed. -/
structure StatusResult where
  response : Response
  pingRun : Bool
  tcpRun : Bool
  deriving DecidableEq

/-- _handle_status (wol_relay.py lines 240-276): require a truthy ip query
parameter; default the port to 22 when absent or empty, else parse it with
int() and answer 400 on a ValueError; then ping, optionally probe TCP, and
classify.  The ping and connect oracles stand for the foreign calls. -/
def handle_status (ip port_raw : Option String) (isWindowsOs : Bool)
    (runner : List String → SubprocessOutcome)
    (connect : String → Int → ℚ → ConnectOutcome) : StatusResult :=
  if ¬ pyTruthy ip then
    ⟨⟨400, [("error", JVal.str "IP address required")]⟩, false, false⟩
  else
    let ipv := ip.getD ""
    match (if port_raw = none ∨ port_raw = some "" then some (22 : Int)
           else pyIntParse (port_raw.getD "")) with
    | none => ⟨⟨400, [("error", JVal.str "Invalid port value")]⟩, false, false⟩
    | some port =>
      let ping_ok := ping_host isWindowsOs ipv runner
      if ¬ ping_ok then
        ⟨⟨200, [("ip", JVal.str ipv), ("port", JVal.int port),
                ("status", JVal.str "offline"), ("ping", JVal.bool ping_ok),
                ("tcp", JVal.bool (ping_ok && ("offline" == "online")))]⟩,
         true, false⟩
      else
        let tcp_ok := check_tcp_port ipv port checkTcpTimeoutDefault connect
        let status := if tcp_ok then "online" else "sleeping"
        ⟨⟨200, [("ip", JVal.str ipv), ("port", JVal.int port),
                ("status", JVal.str status), ("ping", JVal.bool ping_ok),
                ("tcp", JVal.bool (ping_ok && (status == "online")))]⟩,
         true, true⟩

lemma hexVal_isSome_not_ws {c : Char} (h : (hexVal c).isSome) : isPyWs c = false := by
  by_contra hws
  have hws' : isPyWs c = true := by
    cases hb : isPyWs c
    · exact absurd hb hws
    · rfl
  have : c = ' ' ∨ c = '\t' ∨ c = '\n' ∨ c = '\r' ∨ c = '\x0b' ∨ c = '\x0c' := by
    simpa [isPyWs] using hws'
  rcases this with h1 | h1 | h1 | h1 | h1 | h1 <;> subst h1 <;> simp [hexVal] at h

lemma filter_not_ws_of_hex {l : List Char} (h : ∀ c ∈ l, (hexVal c).isSome) :
    l.filter (fun c => !(isPyWs c)) = l := by
  apply List.filter_eq_self.mpr
  intro c hc
  have := hexVal_isSome_not_ws (h c hc)
  simp [this]

lemma fromhexPairs_of_hex : ∀ (n : Nat) (l : List Char), l.length = 2 * n →
    (∀ c ∈ l, (hexVal c).isSome) →
    ∃ bs, fromhexPairs l = some bs ∧ bs.length = n := by
  intro n
  induction n with
  | zero =>
    intro l hl _
    have : l = [] := List.length_eq_zero.mp (by omega)
    subst this
    exact ⟨[], rfl, rfl⟩
  | succ k ih =>
    intro l hl hhex
    match l with
    | [] => simp at hl
    | [_] => simp at hl; omega
    | a :: b :: rest =>
      have hrest : rest.length = 2 * k := by
        simp at hl; omega
      have hhexr : ∀ c ∈ rest, (hexVal c).isSome := fun c hc =>
        hhex c (by simp [hc])
      obtain ⟨bs, hbs, hlen⟩ := ih rest hrest hhexr
      have ha : (hexVal a).isSome := hhex a (by simp)
      have hb : (hexVal b).isSome := hhex b (by simp)
      obtain ⟨va, hva⟩ := Option.isSome_iff_exists.mp ha
      obtain ⟨vb, hvb⟩ := Option.isSome_iff_exists.mp hb
      refine ⟨(16 * va + vb) :: bs, ?_, by simp [hlen]⟩
      simp [fromhexPairs, hva, hvb, hbs]

/-- C1: a MAC string whose cleaned form (separators : and - stripped,
lower-cased) is exactly 12 hexadecimal digits yields a 102-byte packet:
6 bytes 0xFF followed by the 6 raw address bytes repeated 16 times, and
the output depends only on the cleaned form (separator style and letter
case are irrelevant). -/
theorem C1_create_magic_packet_valid (s : String)
    (h12 : (cleanMac s).length = 12)
    (hhex : ∀ c ∈ cleanMac s, (hexVal c).isSome) :
    ∃ addr : List Nat,
      pyFromhex (cleanMac s) = some addr ∧ addr.length = 6 ∧
      create_magic_packet s = some (List.replicate 6 255 ++ (List.replicate 16 addr).flatten) ∧
      (∀ p, create_magic_packet s = some p →
        p.length = 102 ∧ p.take 6 = List.replicate 6 255 ∧
        p.drop 6 = (List.replicate 16 addr).flatten) ∧
      (∀ t : String, cleanMac t = cleanMac s →
        create_magic_packet t = create_magic_packet s) := by
  obtain ⟨addr, haddr, hlen⟩ := fromhexPairs_of_hex 6 (cleanMac s) (by omega) hhex
  have hfrom : pyFromhex (cleanMac s) = some addr := by
    rw [pyFromhex, filter_not_ws_of_hex hhex, haddr]
  have hpkt : create_magic_packet s
      = some (List.replicate 6 255 ++ (List.replicate 16 addr).flatten) := by
    rw [create_magic_packet]
    simp [h12, hfrom]
  refine ⟨addr, hfrom, hlen, hpkt, ?_, ?_⟩
  · intro p hp
    rw [hpkt] at hp
    injection hp with hp
    subst hp
    refine ⟨?_, ?_, ?_⟩
    · simp [List.length_flatten, hlen]
    · exact List.take_left' (by simp)
    · exact List.drop_left' (by simp)
  · intro t ht
    rw [create_magic_packet, create_magic_packet, ht]

/-- Witness for C1 at the concrete mixed-case, mixed-separator input
AA:bb-CC:dd-EE:ff. -/
theorem C1_create_magic_packet_valid_witness :
    ∃ addr : List Nat,
      pyFromhex (cleanMac "AA:bb-CC:dd-EE:ff") = some addr ∧ addr.length = 6 ∧
      create_magic_packet "AA:bb-CC:dd-EE:ff"
        = some (List.replicate 6 255 ++ (List.replicate 16 addr).flatten) ∧
      (∀ p, create_magic_packet "AA:bb-CC:dd-EE:ff" = some p →
        p.length = 102 ∧ p.take 6 = List.replicate 6 255 ∧
        p.drop 6 = (List.replicate 16 addr).flatten) ∧
      (∀ t : String, cleanMac t = cleanMac "AA:bb-CC:dd-EE:ff" →
        create_magic_packet t = create_magic_packet "AA:bb-CC:dd-EE:ff") :=
  C1_create_magic_packet_valid "AA:bb-CC:dd-EE:ff" (by decide) (by decide)

/-- C2 (refuted by the code): the 12-character input consisting of the ten
hex digits aabbccddee followed by two spaces is NOT reducible to 12 hex
digits, yet create_magic_packet raises no error: it passes the length-12
check and bytes.fromhex skips the ASCII spaces, so an 86-byte buffer is
returned instead of the mandated ValueError. -/
theorem C2_space_padded_input_not_rejected :
    (cleanMac "aabbccddee  ").length = 12 ∧
    (cleanMac "aabbccddee  ").all (fun c => (hexVal c).isSome) = false ∧
    (create_magic_packet "aabbccddee  ").map List.length = some 86 := by
  decide

/-- C3: the classification is offline iff ping fails (and the TCP probe
runs exactly when ping succeeds, so it is never executed on a ping
failure), online iff ping and TCP both succeed, and sleeping iff ping
succeeds and TCP fails. -/
theorem C3_classification (ping_ok : Bool) (tcpProbe : Unit → Bool) :
    ((classifyStatus ping_ok tcpProbe).1 = HostStatus.offline ↔ ping_ok = false) ∧
    (classifyStatus ping_ok tcpProbe).2 = ping_ok ∧
    ((classifyStatus ping_ok tcpProbe).1 = HostStatus.online ↔
      ping_ok = true ∧ tcpProbe () = true) ∧
    ((classifyStatus ping_ok tcpProbe).1 = HostStatus.sleeping ↔
      ping_ok = true ∧ tcpProbe () = false) := by
  cases ping_ok <;> cases htcp : tcpProbe () <;> simp [classifyStatus, htcp]

/-- C4: the sleep-command resolution of the code agrees with the specified
priority scheme at every input, and in particular an unrecognized family
such as plan9, or an absent family, with no override resolves to nothing
(no silent default). -/
theorem C4_sleep_command_resolution (cfg : SleepConfig)
    (os_type custom_command : Option String) :
    resolveSleepCommand cfg os_type custom_command
      = resolveSleepCommandSpec cfg os_type custom_command ∧
    resolveSleepCommand cfg (some "plan9") none = none ∧
    resolveSleepCommand cfg none none = none := by
  refine ⟨?_, rfl, rfl⟩
  cases custom_command with
  | none =>
    cases os_type with
    | none =>
      simp [resolveSleepCommand, resolveSleepCommandSpec, pyTruthy, pyLower]
    | some f =>
      simp [resolveSleepCommand, resolveSleepCommandSpec, pyTruthy, sleepTableSpec]
  | some c =>
    by_cases hc : c = ""
    · subst hc
      cases os_type with
      | none =>
        simp [resolveSleepCommand, resolveSleepCommandSpec, pyTruthy, pyLower]
      | some f =>
        simp [resolveSleepCommand, resolveSleepCommandSpec, pyTruthy, sleepTableSpec]
    · simp [resolveSleepCommand, resolveSleepCommandSpec, pyTruthy, hc]

/-- C5: when the sleep child process exits non-zero, POST /sleep answers
502 with a populated error field, the exit code in the returncode field,
and the attempted command line (the space-joined argv) in the command
field; the failure is never reported as success. -/
theorem C5_sleep_failure_propagates (cfg : RelayConfig) (data : PostBody)
    (rc : Int) (cmd : String)
    (hrc : rc ≠ 0)
    (hhost : pyTruthy (pyOr (pyOr data.host data.ip_address) data.ip) = true)
    (hcmd : resolveSleepCommand cfg.sleep data.os data.command = some cmd) :
    (do_POST_sleep cfg data rc).1.status = 502 ∧
    fieldVal (do_POST_sleep cfg data rc).1 "error" = some (JVal.str "Sleep command failed") ∧
    fieldVal (do_POST_sleep cfg data rc).1 "returncode" = some (JVal.int rc) ∧
    fieldVal (do_POST_sleep cfg data rc).1 "command"
      = some (JVal.str (String.intercalate " " (cfg.sshBin :: (cfg.sshExtraArgs ++
          [(pyOr (pyOr data.host data.ip_address) data.ip).getD "", cmd])))) ∧
    (do_POST_sleep cfg data rc).2.childRun
      = some (cfg.sshBin :: (cfg.sshExtraArgs ++
          [(pyOr (pyOr data.host data.ip_address) data.ip).getD "", cmd])) := by
  simp only [do_POST_sleep, handle_sleep, hhost, Bool.true_eq_false, not_true_eq_false,
    if_false, trigger_sleep, hcmd, hrc, if_true, ite_not]
  simp [postResponse, fieldVal, List.find?, strCalledProcessError, hrc]

/-- Witness for C5: a concrete configuration and body for which the child
exits 1 and the response is the 502 just described. -/
theorem C5_sleep_failure_propagates_witness :
    (do_POST_sleep ⟨"ssh", [], ⟨"lincmd", "wincmd", "maccmd"⟩⟩
      ⟨none, none, none, some "10.0.0.5", none, none, some "windows", none⟩ 1).1.status
      = 502 :=
  (C5_sleep_failure_propagates ⟨"ssh", [], ⟨"lincmd", "wincmd", "maccmd"⟩⟩
    ⟨none, none, none, some "10.0.0.5", none, none, some "windows", none⟩ 1 "wincmd"
    (by decide) (by decide) (by decide)).1

/-- C8: neither probe lets a tooling failure escape: ping_host answers
True exactly when check_output returned output (every exception outcome,
including a missing executable or permission failure, yields False), and
check_tcp_port answers True exactly when the connection was made (every
OSError yields False); both are total functions of the oracle outcome. -/
theorem C8_probe_tooling_failures_degrade (isWindowsOs : Bool) (host : String)
    (runner : List String → SubprocessOutcome) (port : Int) (timeout : ℚ)
    (connect : String → Int → ℚ → ConnectOutcome) :
    (ping_host isWindowsOs host runner = true ↔
      ∃ out, runner (pingCommand isWindowsOs host) = SubprocessOutcome.output out) ∧
    (check_tcp_port host port timeout connect = true ↔
      connect host port timeout = ConnectOutcome.connected) := by
  constructor
  · cases h : runner (pingCommand isWindowsOs host) <;> simp [ping_host, h]
  · cases h : connect host port timeout <;> simp [check_tcp_port, h]

/-- C9 (code level): the ping argument vector passes the literal timeout
value 1000 with flag -w on Windows and -W elsewhere (the same number on
both platforms, although the -W flag of Linux ping counts seconds), and
check_tcp_port passes the default timeout 2.0 to create_connection. -/
theorem C9_timeout_arguments :
    pingCommand true "198.51.100.7" = ["ping", "-n", "1", "-w", "1000", "198.51.100.7"] ∧
    pingCommand false "198.51.100.7" = ["ping", "-c", "1", "-W", "1000", "198.51.100.7"] ∧
    checkTcpTimeoutDefault = 2 :=
  ⟨rfl, rfl, rfl⟩

/-- C6 (refuted by the code): the port query value 0 is not a positive
integer, yet the status endpoint does not answer 400: int("0") parses, so
the request proceeds and the ping probe is executed. -/
theorem C6_port_zero_not_rejected :
    pyIntParse "0" = some 0 ∧
    (handle_status (some "203.0.113.7") (some "0") false
      (fun _ => SubprocessOutcome.calledProcessError 1)
      (fun _ _ _ => ConnectOutcome.osError "refused")).response.status = 200 ∧
    (handle_status (some "203.0.113.7") (some "0") false
      (fun _ => SubprocessOutcome.calledProcessError 1)
      (fun _ _ _ => ConnectOutcome.osError "refused")).pingRun = true := by
  decide

/-- C6 as amended: the port is validated as an integer (Python int
syntax) before any probe: a present, non-empty, unparseable value gives
400 with no probe executed; an absent or empty value defaults the port to
22; any parseable integer, zero and negatives included, is accepted and
the probes run with it. -/
theorem C6_port_validation_amended (ip port_raw : Option String) (w : Bool)
    (runner : List String → SubprocessOutcome)
    (connect : String → Int → ℚ → ConnectOutcome)
    (hip : pyTruthy ip = true) :
    (port_raw ≠ none → port_raw ≠ some "" → pyIntParse (port_raw.getD "") = none →
      (handle_status ip port_raw w runner connect).response.status = 400 ∧
      (handle_status ip port_raw w runner connect).pingRun = false ∧
      (handle_status ip port_raw w runner connect).tcpRun = false) ∧
    ((port_raw = none ∨ port_raw = some "") →
      (handle_status ip port_raw w runner connect).response.status = 200 ∧
      fieldVal (handle_status ip port_raw w runner connect).response "port"
        = some (JVal.int 22)) ∧
    (∀ n : Int, port_raw ≠ none → port_raw ≠ some "" →
      pyIntParse (port_raw.getD "") = some n →
      (handle_status ip port_raw w runner connect).response.status = 200 ∧
      (handle_status ip port_raw w runner connect).pingRun = true ∧
      fieldVal (handle_status ip port_raw w runner connect).response "port"
        = some (JVal.int n)) := by
  refine ⟨?_, ?_, ?_⟩
  · intro h1 h2 h3
    have hcond : ¬ (port_raw = none ∨ port_raw = some "") := by
      rintro (h | h)
      · exact h1 h
      · exact h2 h
    simp [handle_status, hip, hcond, h3]
  · intro h
    rcases h with h | h <;> subst h <;>
      cases hping : ping_host w (ip.getD "") runner <;>
        simp [handle_status, hip, hping, fieldVal, List.find?]
  · intro n h1 h2 hn
    have hcond : ¬ (port_raw = none ∨ port_raw = some "") := by
      rintro (h | h)
      · exact h1 h
      · exact h2 h
    cases hping : ping_host w (ip.getD "") runner <;>
      simp [handle_status, hip, hcond, hn, hping, fieldVal, List.find?]

/-- Witness for the amended C6 at the unparseable port value abc: the
response is 400. -/
theorem C6_port_validation_amended_witness :
    (handle_status (some "203.0.113.7") (some "abc") false
      (fun _ => SubprocessOutcome.output [])
      (fun _ _ _ => ConnectOutcome.connected)).response.status = 400 :=
  ((C6_port_validation_amended (some "203.0.113.7") (some "abc") false
      (fun _ => SubprocessOutcome.output [])
      (fun _ _ _ => ConnectOutcome.connected) (by decide)).1
    (by decide) (by decide) (by decide)).1

/-- C7 (refuted by the code): a POST /wake body whose mac value consists
of eight hex digits and four spaces is not a valid MAC, yet the response
is 200 and a datagram IS sent: the 12-character value passes the length
check and bytes.fromhex skips the spaces, so a 70-byte payload goes out
instead of the mandated 400 with no send. -/
theorem C7_wake_sends_despite_invalid_mac :
    (cleanMac "aabbccdd    ").all (fun c => (hexVal c).isSome) = false ∧
    (do_POST_wake ⟨none, some "aabbccdd    ", none, none, none, none, none, none⟩).1.status
      = 200 ∧
    ((do_POST_wake
        ⟨none, some "aabbccdd    ", none, none, none, none, none, none⟩).2.datagram).map
      List.length = some 70 := by
  decide

lemma pyOr_one_none (a b : Option String) (h : a = none ∨ b = none) :
    (pyTruthy (pyOr a b) = false ∧ pyTruthy (pyOr b a) = false) ∨
    (pyTruthy (pyOr a b) = true ∧ pyOr a b = pyOr b a) := by
  have hn : pyTruthy none = false := rfl
  rcases h with h | h <;> subst h
  · cases hb : pyTruthy b
    · left
      constructor <;> simp [pyOr, hn, hb]
    · right
      constructor <;> simp [pyOr, hn, hb]
  · cases ha : pyTruthy a
    · left
      constructor <;> simp [pyOr, hn, ha]
    · right
      constructor <;> simp [pyOr, hn, ha]

/-- C10: POST /api/control is behaviorally equivalent to the documented
endpoints: with action wake and at most one of the mac / mac_address keys
it causes the same magic-packet send and the same response status as POST
/wake, with action sleep the same trigger_sleep child run and response
status as POST /sleep, a successful response additionally carrying the
action field; an unsupported action is a 400 caller error with an error
field and no side effect. -/
theorem C10_control_endpoint_equivalence (cfg : RelayConfig) (data : PostBody)
    (childExit : Int) :
    (pyLower (data.action.getD "") = "wake" →
      (data.mac = none ∨ data.mac_address = none) →
      (do_POST_control cfg data childExit).2 = (do_POST_wake data).2 ∧
      (do_POST_control cfg data childExit).1.status = (do_POST_wake data).1.status ∧
      ((do_POST_wake data).1.status = 200 →
        (do_POST_control cfg data childExit).1.body
          = (do_POST_wake data).1.body ++ [("action", JVal.str "wake")])) ∧
    (pyLower (data.action.getD "") = "sleep" →
      (do_POST_control cfg data childExit).2 = (do_POST_sleep cfg data childExit).2 ∧
      (do_POST_control cfg data childExit).1.status
        = (do_POST_sleep cfg data childExit).1.status ∧
      ((do_POST_sleep cfg data childExit).1.status = 200 →
        (do_POST_control cfg data childExit).1.body
          = (do_POST_sleep cfg data childExit).1.body ++ [("action", JVal.str "sleep")])) ∧
    (pyLower (data.action.getD "") ≠ "wake" → pyLower (data.action.getD "") ≠ "sleep" →
      (do_POST_control cfg data childExit).1.status = 400 ∧
      (∃ m, fieldVal (do_POST_control cfg data childExit).1 "error" = some (JVal.str m)) ∧
      (do_POST_control cfg data childExit).2 = Effects.mk none none) := by
  refine ⟨?_, ?_, ?_⟩
  · intro haction hone
    have hor := pyOr_one_none data.mac data.mac_address hone
    simp only [do_POST_control, do_POST_wake, handle_control, handle_wake, haction]
    rcases hor with ⟨hf1, hf2⟩ | ⟨ht, heq⟩
    · simp [hf1, hf2, postResponse]
    · rw [← heq]
      cases hsend : send_magic_packet ((pyOr data.mac data.mac_address).getD "") with
      | error e =>
        cases e <;> simp [ht, hsend, postResponse]
      | ok packet =>
        simp [ht, hsend, postResponse]
  · intro haction
    simp only [do_POST_control, do_POST_sleep, handle_control, handle_sleep, haction]
    cases hh : pyTruthy (pyOr (pyOr data.host data.ip_address) data.ip) with
    | false => simp [hh, postResponse]
    | true =>
      cases htr : trigger_sleep cfg ((pyOr (pyOr data.host data.ip_address) data.ip).getD "")
          data.os data.command childExit with
      | error e =>
        cases e <;> simp [hh, htr, postResponse]
      | ok cmd =>
        simp [hh, htr, postResponse]
  · intro h1 h2
    simp [do_POST_control, handle_control, h1, h2, postResponse, fieldVal, List.find?]

/-- Witness for C10 at a concrete wake body: the control endpoint and the
wake endpoint answer with the same status. -/
theorem C10_control_endpoint_equivalence_witness :
    (do_POST_control ⟨"ssh", [], ⟨"lincmd", "wincmd", "maccmd"⟩⟩
        ⟨some "wake", some "AA:BB:CC:DD:EE:FF", none, none, none, none, none, none⟩ 0).1.status
      = (do_POST_wake
          ⟨some "wake", some "AA:BB:CC:DD:EE:FF", none, none, none, none, none, none⟩).1.status :=
  ((C10_control_endpoint_equivalence ⟨"ssh", [], ⟨"lincmd", "wincmd", "maccmd"⟩⟩
      ⟨some "wake", some "AA:BB:CC:DD:EE:FF", none, none, none, none, none, none⟩ 0).1
    (by decide) (Or.inr rfl)).2.1

end WolRelay
